import Mathlib

/-!
# NexusMiner LLP session core: a shallow embedding with proofs

This file embeds the byte-level and state-machine core of the NexusMiner
repository in Lean 4 and proves properties of it:

* the block-header codec (`LLP/block_utils.hpp`, `deserialize_block_header`);
* the LLP packet framing (`LLP/packet.hpp`: `Packet.is_valid`, `get_bytes`,
  `extract_packet_from_buffer`);
* the solo-mode session state machine (`protocol/solo.cpp`: constructor,
  `reset`, `submit_block`, the `MINER_AUTH_RESULT` branch of
  `process_messages`);
* the mining template interface
  (`protocol/mining_template_interface.cpp`: `read_template`,
  `validate_template`, `feed_current_template`, `verify_block_creation`,
  `set_session_id`, `set_channel`);
* the hex decoder (`miner_keys.cpp`, `keys::from_hex`).

Bytes are modelled as `Nat` values below 256 inside `List Nat`; machine
integers are `Nat` with explicit `% 2 ^ w` where the C++ code truncates.
Fallible C++ code (exceptions, empty-payload returns) becomes
`Except`/`Option`.
-/

namespace NexusMiner

/-! ## Byte codec

Big-endian readers mirror the `read_u32`/`read_u64` lambdas of
`llp_utils::deserialize_block_header` and the shift/or expressions used
throughout `packet.hpp`; little-endian writers mirror `append_uint64_le`,
`append_uint32_le`, `append_uint16_le` in `solo.cpp`. -/

/-- Fold a byte list big-endian into a natural number, mirroring the
shift-and-or accumulation of the C++ readers. -/
def beVal (l : List Nat) : Nat :=
  l.foldl (fun a b => 256 * a + b) 0

/-- Read a big-endian `u32` at offset `i` of a byte list
(`read_u32` in `block_utils.hpp`). -/
def u32beAt (data : List Nat) (i : Nat) : Nat :=
  beVal ((data.drop i).take 4)

/-- Read a big-endian `u64` at offset `i` of a byte list
(`read_u64` in `block_utils.hpp`). -/
def u64beAt (data : List Nat) (i : Nat) : Nat :=
  beVal ((data.drop i).take 8)

/-- Big-endian 4-byte encoding of a `u32` value, as pushed by
`Packet::get_bytes` (`(m_length >> 24)`, `(m_length >> 16)`, ...). -/
def u32beBytes (v : Nat) : List Nat :=
  [v / 2 ^ 24 % 256, v / 2 ^ 16 % 256, v / 2 ^ 8 % 256, v % 256]

/-- Big-endian 8-byte encoding of a `u64` value. -/
def u64beBytes (v : Nat) : List Nat :=
  [v / 2 ^ 56 % 256, v / 2 ^ 48 % 256, v / 2 ^ 40 % 256, v / 2 ^ 32 % 256,
   v / 2 ^ 24 % 256, v / 2 ^ 16 % 256, v / 2 ^ 8 % 256, v % 256]

/-- Little-endian 8-byte encoding (`append_uint64_le` in `solo.cpp`). -/
def u64leBytes (v : Nat) : List Nat :=
  [v % 256, v / 2 ^ 8 % 256, v / 2 ^ 16 % 256, v / 2 ^ 24 % 256,
   v / 2 ^ 32 % 256, v / 2 ^ 40 % 256, v / 2 ^ 48 % 256, v / 2 ^ 56 % 256]

/-- Little-endian 4-byte encoding (`append_uint32_le` in `solo.cpp`). -/
def u32leBytes (v : Nat) : List Nat :=
  [v % 256, v / 2 ^ 8 % 256, v / 2 ^ 16 % 256, v / 2 ^ 24 % 256]

/-- Little-endian 2-byte encoding (`append_uint16_le` in `solo.cpp`). -/
def u16leBytes (v : Nat) : List Nat :=
  [v % 256, v / 2 ^ 8 % 256]

/-- Read a little-endian `u32` from four bytes, mirroring the
`b1 | (b2 << 8) | (b3 << 16) | (b4 << 24)` expression in the
`MINER_AUTH_RESULT` branch of `Solo::process_messages`. -/
def u32leOf (b1 b2 b3 b4 : Nat) : Nat :=
  b1 + b2 * 2 ^ 8 + b3 * 2 ^ 16 + b4 * 2 ^ 24

/-! ## Block header codec (`LLP/block_utils.hpp`)

`LLP::CBlock` itself lives in `LLP/block.hpp`, which is not part of the
source tree here; the fields below are those read and written by the code
that is present (`deserialize_block_header`, `validate_template`,
`process_messages`).  `SetBytes`/`GetBytes` of the fixed-width hash types
are modelled as storing/returning the byte list. -/

/-- The block header record deserialized from a `BLOCK_DATA` payload. -/
structure CBlock where
  nVersion : Nat
  hashPrevBlock : List Nat
  hashMerkleRoot : List Nat
  nChannel : Nat
  nHeight : Nat
  nBits : Nat
  nNonce : Nat
  nTime : Nat
deriving DecidableEq, Repr

instance : Inhabited CBlock := ⟨⟨0, [], [], 0, 0, 0, 0, 0⟩⟩

/-- `llp_utils::deserialize_block_header` from `LLP/block_utils.hpp`.

The payload must be at least `MIN_SIZE = 216` bytes.  Fields are read in
order: `nVersion` (u32 big-endian), `hashPrevBlock` (128 bytes),
`hashMerkleRoot` (`data.size() - 216 + 64` bytes, at least 64),
`nChannel`, `nHeight`, `nBits` (u32 big-endian each) and `nNonce`
(u64 big-endian).  No time field is read; `nTime` keeps its
default-constructed value, modelled as 0. -/
def deserialize_block_header (data : List Nat) : Except String CBlock :=
  if data.length < 216 then
    Except.error "payload below minimum size 216"
  else if data.length < 132 + 20 then
    Except.error "insufficient bytes for merkle root and trailing fields"
  else if data.length - 132 - 20 < 64 then
    Except.error "merkle root size below minimum 64"
  else
    Except.ok
      { nVersion := u32beAt data 0
        hashPrevBlock := (data.drop 4).take 128
        hashMerkleRoot := (data.drop 132).take (data.length - 132 - 20)
        nChannel := u32beAt data (data.length - 20)
        nHeight := u32beAt data (data.length - 16)
        nBits := u32beAt data (data.length - 12)
        nNonce := u64beAt data (data.length - 8)
        nTime := 0 }

/-- Big-endian serialization of a header in the field order that
`deserialize_block_header` reads.  Used to express the decoder's field
order and endianness as a round-trip. -/
def encodeHeaderBE (b : CBlock) : List Nat :=
  u32beBytes b.nVersion ++
    (b.hashPrevBlock ++
      (b.hashMerkleRoot ++
        (u32beBytes b.nChannel ++
          (u32beBytes b.nHeight ++
            (u32beBytes b.nBits ++ u64beBytes b.nNonce)))))

/-- A header is well-formed for the 216-byte wire layout when its hash
fields have the exact sizes the decoder reads back, its integer fields
fit their wire width, and its time field is at the decoder's default. -/
def CBlock.wf216 (b : CBlock) : Prop :=
  b.hashPrevBlock.length = 128 ∧ b.hashMerkleRoot.length = 64 ∧
    b.nVersion < 2 ^ 32 ∧ b.nChannel < 2 ^ 32 ∧ b.nHeight < 2 ^ 32 ∧
    b.nBits < 2 ^ 32 ∧ b.nNonce < 2 ^ 64 ∧ b.nTime = 0

theorem u32beBytes_length (v : Nat) : (u32beBytes v).length = 4 := rfl

theorem u64beBytes_length (v : Nat) : (u64beBytes v).length = 8 := rfl

theorem beVal_u32beBytes (v : Nat) (h : v < 2 ^ 32) :
    beVal (u32beBytes v) = v := by
  simp only [u32beBytes, beVal, List.foldl]
  omega

theorem beVal_u64beBytes (v : Nat) (h : v < 2 ^ 64) :
    beVal (u64beBytes v) = v := by
  simp only [u64beBytes, beVal, List.foldl]
  omega

theorem encodeHeaderBE_length (b : CBlock)
    (h1 : b.hashPrevBlock.length = 128) (h2 : b.hashMerkleRoot.length = 64) :
    (encodeHeaderBE b).length = 216 := by
  simp [encodeHeaderBE, u32beBytes, u64beBytes, h1, h2]

theorem drop_append_of_length {α : Type} (l r : List α) (n : Nat)
    (h : l.length = n) : (l ++ r).drop n = r := by
  subst h; exact List.drop_left l r

theorem take_append_of_length {α : Type} (l r : List α) (n : Nat)
    (h : l.length = n) : (l ++ r).take n = l := by
  subst h; exact List.take_left l r

theorem encodeHeaderBE_drop4 (b : CBlock) :
    (encodeHeaderBE b).drop 4 =
      b.hashPrevBlock ++
        (b.hashMerkleRoot ++
          (u32beBytes b.nChannel ++
            (u32beBytes b.nHeight ++
              (u32beBytes b.nBits ++ u64beBytes b.nNonce)))) :=
  drop_append_of_length _ _ 4 (u32beBytes_length _)

theorem encodeHeaderBE_drop132 (b : CBlock)
    (h1 : b.hashPrevBlock.length = 128) :
    (encodeHeaderBE b).drop 132 =
      b.hashMerkleRoot ++
        (u32beBytes b.nChannel ++
          (u32beBytes b.nHeight ++
            (u32beBytes b.nBits ++ u64beBytes b.nNonce))) := by
  have h : (encodeHeaderBE b).drop 132 = ((encodeHeaderBE b).drop 4).drop 128 := by
    rw [List.drop_drop]
  rw [h, encodeHeaderBE_drop4, drop_append_of_length _ _ 128 h1]

theorem encodeHeaderBE_drop196 (b : CBlock)
    (h1 : b.hashPrevBlock.length = 128) (h2 : b.hashMerkleRoot.length = 64) :
    (encodeHeaderBE b).drop 196 =
      u32beBytes b.nChannel ++
        (u32beBytes b.nHeight ++
          (u32beBytes b.nBits ++ u64beBytes b.nNonce)) := by
  have h : (encodeHeaderBE b).drop 196 = ((encodeHeaderBE b).drop 132).drop 64 := by
    rw [List.drop_drop]
  rw [h, encodeHeaderBE_drop132 b h1, drop_append_of_length _ _ 64 h2]

theorem encodeHeaderBE_drop200 (b : CBlock)
    (h1 : b.hashPrevBlock.length = 128) (h2 : b.hashMerkleRoot.length = 64) :
    (encodeHeaderBE b).drop 200 =
      u32beBytes b.nHeight ++ (u32beBytes b.nBits ++ u64beBytes b.nNonce) := by
  have h : (encodeHeaderBE b).drop 200 = ((encodeHeaderBE b).drop 196).drop 4 := by
    rw [List.drop_drop]
  rw [h, encodeHeaderBE_drop196 b h1 h2, drop_append_of_length _ _ 4 (u32beBytes_length _)]

theorem encodeHeaderBE_drop204 (b : CBlock)
    (h1 : b.hashPrevBlock.length = 128) (h2 : b.hashMerkleRoot.length = 64) :
    (encodeHeaderBE b).drop 204 =
      u32beBytes b.nBits ++ u64beBytes b.nNonce := by
  have h : (encodeHeaderBE b).drop 204 = ((encodeHeaderBE b).drop 200).drop 4 := by
    rw [List.drop_drop]
  rw [h, encodeHeaderBE_drop200 b h1 h2, drop_append_of_length _ _ 4 (u32beBytes_length _)]

theorem encodeHeaderBE_drop208 (b : CBlock)
    (h1 : b.hashPrevBlock.length = 128) (h2 : b.hashMerkleRoot.length = 64) :
    (encodeHeaderBE b).drop 208 = u64beBytes b.nNonce := by
  have h : (encodeHeaderBE b).drop 208 = ((encodeHeaderBE b).drop 204).drop 4 := by
    rw [List.drop_drop]
  rw [h, encodeHeaderBE_drop204 b h1 h2, drop_append_of_length _ _ 4 (u32beBytes_length _)]

/-- Decoding an encoded well-formed header recovers the header. -/
theorem deserialize_encodeHeaderBE (b : CBlock) (hwf : b.wf216) :
    deserialize_block_header (encodeHeaderBE b) = Except.ok b := by
  obtain ⟨h1, h2, hv, hc, hh, hb, hn, ht⟩ := hwf
  have hlen : (encodeHeaderBE b).length = 216 := encodeHeaderBE_length b h1 h2
  rw [deserialize_block_header, hlen]
  norm_num
  have e0 : u32beAt (encodeHeaderBE b) 0 = b.nVersion := by
    rw [u32beAt, List.drop_zero, encodeHeaderBE,
      take_append_of_length _ _ 4 (u32beBytes_length _), beVal_u32beBytes _ hv]
  have e4 : ((encodeHeaderBE b).drop 4).take 128 = b.hashPrevBlock := by
    rw [encodeHeaderBE_drop4, take_append_of_length _ _ 128 h1]
  have e132 : ((encodeHeaderBE b).drop 132).take 64 = b.hashMerkleRoot := by
    rw [encodeHeaderBE_drop132 b h1, take_append_of_length _ _ 64 h2]
  have e196 : u32beAt (encodeHeaderBE b) 196 = b.nChannel := by
    rw [u32beAt, encodeHeaderBE_drop196 b h1 h2,
      take_append_of_length _ _ 4 (u32beBytes_length _), beVal_u32beBytes _ hc]
  have e200 : u32beAt (encodeHeaderBE b) 200 = b.nHeight := by
    rw [u32beAt, encodeHeaderBE_drop200 b h1 h2,
      take_append_of_length _ _ 4 (u32beBytes_length _), beVal_u32beBytes _ hh]
  have e204 : u32beAt (encodeHeaderBE b) 204 = b.nBits := by
    rw [u32beAt, encodeHeaderBE_drop204 b h1 h2,
      take_append_of_length _ _ 4 (u32beBytes_length _), beVal_u32beBytes _ hb]
  have e208 : u64beAt (encodeHeaderBE b) 208 = b.nNonce := by
    rw [u64beAt, encodeHeaderBE_drop208 b h1 h2, List.take_of_length_le (by rw [u64beBytes_length]),
      beVal_u64beBytes _ hn]
  rw [e0, e4, e132, e196, e200, e204, e208]
  cases b
  simp_all

/-- Payloads below 216 bytes are rejected by the decoder. -/
theorem deserialize_short_fails (data : List Nat) (h : data.length < 216) :
    (deserialize_block_header data).isOk = false := by
  rw [deserialize_block_header, if_pos h]
  rfl

/-- C1: the block-header decoder, as the claim states it (92-byte layout),
is refuted: a payload of exactly 92 bytes does not decode to a header at
all; the decoder requires at least 216 bytes. -/
theorem c1_counterexample :
    (deserialize_block_header (List.replicate 92 0)).isOk = false ∧
      (deserialize_block_header (List.replicate 91 0)).isOk = false := by
  constructor <;> rfl

/-- C1 (amended): `deserialize_block_header` accepts payloads of at least
216 bytes and reads, big-endian and in order: `version` (u32),
`prev_hash` (128 bytes), `merkle_root` (64 bytes for a 216-byte payload),
`channel`, `height`, `bits` (u32 each), `nonce` (u64); it reads no time
field.  Every payload shorter than 216 bytes (92 bytes included) fails. -/
theorem c1_block_header_codec :
    (∀ b : CBlock, b.wf216 →
        deserialize_block_header (encodeHeaderBE b) = Except.ok b) ∧
      (∀ data : List Nat, data.length < 216 →
        (deserialize_block_header data).isOk = false) :=
  ⟨deserialize_encodeHeaderBE, deserialize_short_fails⟩

/-- Witness for C1 (amended): a concrete well-formed header round-trips
and a concrete 215-byte payload fails. -/
theorem c1_block_header_codec_witness :
    deserialize_block_header
        (encodeHeaderBE
          ⟨7, List.replicate 128 1, List.replicate 64 2, 2, 1000, 123, 5, 0⟩) =
      Except.ok ⟨7, List.replicate 128 1, List.replicate 64 2, 2, 1000, 123, 5, 0⟩ ∧
      (deserialize_block_header (List.replicate 215 0)).isOk = false := by
  refine ⟨c1_block_header_codec.1 _ ?_, c1_block_header_codec.2 _ ?_⟩
  · exact ⟨by simp, by simp, by norm_num, by norm_num, by norm_num, by norm_num, by norm_num, rfl⟩
  · norm_num [List.length_replicate]

/-! ## Packet framing (`LLP/packet.hpp`)

`Packet` carries the fields of the C++ class that the framing logic
reads: `m_header`, `m_length`, `m_data`, `m_is_valid`.  A null
`Shared_payload` is `none`. -/

/-- An LLP packet: 1-byte opcode, optional 4-byte big-endian length,
payload. -/
structure Packet where
  header : Nat
  length : Nat
  data : Option (List Nat)
  valid : Bool
deriving DecidableEq, Repr

/-- The default-constructed `Packet()`: header 255, zero length, null
data, `m_is_valid = false`. -/
def Packet.defaultPacket : Packet :=
  { header := 255, length := 0, data := none, valid := false }

/-- `Packet::is_auth_packet`: header in the Falcon authentication range
`MINER_AUTH_INIT (207) .. SESSION_KEEPALIVE (212)`. -/
def Packet.is_auth_packet (p : Packet) : Bool :=
  decide (207 ≤ p.header ∧ p.header ≤ 212)

/-- `Packet::is_valid`, clause for clause:

* `m_is_valid == false` rejects;
* `header == 0 && length == 0` accepts (legacy LOGIN special case);
* header-only requests `GET_HEIGHT (130)`, `GET_BLOCK (129)`,
  `PING (253)` with zero length accept;
* data packets (`header < 128`) with positive length accept;
* auth packets (207..212) with positive length accept;
* generic requests (`128 <= header < 255`) with zero length accept;
* everything else rejects. -/
def Packet.is_valid (p : Packet) : Bool :=
  if p.valid = false then false
  else if p.header = 0 ∧ p.length = 0 then true
  else if (p.header = 130 ∨ p.header = 129 ∨ p.header = 253) ∧ p.length = 0 then true
  else if p.header < 128 ∧ 0 < p.length then true
  else if p.is_auth_packet = true ∧ 0 < p.length then true
  else if 128 ≤ p.header ∧ p.header < 255 ∧ p.length = 0 then true
  else false

/-- `Packet::get_bytes`: `none` models the empty `Shared_payload{}`
returned for an invalid packet; otherwise the wire bytes are the header
byte, then, for data-bearing packets (data or auth class with positive
length), the big-endian `u32` length and the payload. -/
def Packet.get_bytes (p : Packet) : Option (List Nat) :=
  if p.is_valid = false then none
  else if (p.header < 128 ∨ p.is_auth_packet = true) ∧ 0 < p.length then
    some (p.header :: (u32beBytes p.length ++ p.data.getD []))
  else some [p.header]

/-- `extract_packet_from_buffer` from `LLP/packet.hpp`: given the shared
receive buffer and a start index, return the packet and the
`remaining_size` out-parameter.  Mirrors the C++ branch for branch:

* null or empty buffer, or `start_index` out of range: default (invalid)
  packet, remaining 0;
* exactly 1 byte left: commit it as a header-only packet, remaining 0;
* 2 to 4 bytes left (truncated length field): default (invalid) packet,
  remaining 0;
* otherwise read the big-endian length; if fewer payload bytes remain
  than announced: default (invalid) packet, remaining 0; else commit the
  packet and report the bytes left after it. -/
def extract_packet_from_buffer (buffer : Option (List Nat)) (start_index : Nat) :
    Packet × Nat :=
  match buffer with
  | none => (Packet.defaultPacket, 0)
  | some b =>
    if b.length = 0 then (Packet.defaultPacket, 0)
    else if b.length ≤ start_index then (Packet.defaultPacket, 0)
    else
      let sz := b.length - start_index
      if sz = 1 then
        ({ header := b.getD start_index 0, length := 0, data := none, valid := true }, 0)
      else if sz < 5 then
        (Packet.defaultPacket, 0)
      else
        let len := b.getD (start_index + 1) 0 * 2 ^ 24 + b.getD (start_index + 2) 0 * 2 ^ 16 +
          b.getD (start_index + 3) 0 * 2 ^ 8 + b.getD (start_index + 4) 0
        if sz - 5 < len then
          (Packet.defaultPacket, 0)
        else
          ({ header := b.getD start_index 0, length := len,
             data := some ((b.drop (start_index + 5)).take len), valid := true },
           sz - (5 + len))

/-- C2: the claim that a truncated length prefix is reported as
Incomplete with no bytes consumed is refuted.  On the buffer
`[0x00, 0x00, 0x00]` — the data-bearing `BLOCK_DATA` opcode followed by
2 of the 4 length bytes — the parser returns the same invalid default
packet as for a null buffer, with `remaining_size = 0`: the three bytes
are consumed and discarded, indistinguishable from invalid input. -/
theorem c2_counterexample :
    extract_packet_from_buffer (some [0, 0, 0]) 0 =
        ({ header := 255, length := 0, data := none, valid := false }, 0) ∧
      extract_packet_from_buffer (some [0, 0, 0]) 0 =
        extract_packet_from_buffer none 0 := by
  exact ⟨rfl, rfl⟩

/-- C2 (amended): whenever 2 to 4 bytes remain from the start offset —
an opcode byte plus a truncated length field, whatever the opcode —
`extract_packet_from_buffer` returns the default invalid packet
(`m_is_valid = false`, the same value returned for malformed input) and
sets `remaining_size` to 0, so the caller's loop stops and the partial
bytes are discarded; no Incomplete classification exists. -/
theorem c2_truncated_length_discarded (b : List Nat) (start_index : Nat)
    (hlo : 2 ≤ b.length - start_index) (hhi : b.length - start_index ≤ 4) :
    extract_packet_from_buffer (some b) start_index = (Packet.defaultPacket, 0) := by
  rw [extract_packet_from_buffer]
  rw [if_neg (by omega), if_neg (by omega), if_neg (by omega), if_pos (by omega)]

/-- Witness for C2 (amended): a buffer of the `SUBMIT_BLOCK` opcode plus
one length byte is discarded as invalid. -/
theorem c2_truncated_length_discarded_witness :
    extract_packet_from_buffer (some [1, 0]) 0 = (Packet.defaultPacket, 0) :=
  c2_truncated_length_discarded [1, 0] 0 (by norm_num) (by norm_num)

/-- C3: the claim that every data-class opcode in `[0, 127]` with an
empty payload is rejected is refuted at opcode 0: `Packet::is_valid`
accepts a packet with header 0 and length 0 (the legacy LOGIN special
case). -/
theorem c3_counterexample :
    Packet.is_valid { header := 0, length := 0, data := none, valid := true } = true := rfl

/-- C3 (amended): the validity rule rejects every packet with a
data-class opcode in `[1, 127]` and an empty payload, but accepts opcode
0 with an empty payload (legacy LOGIN special case); and it rejects
every packet with a header-only opcode (128–199, 253, 254) and a nonzero
length field. -/
theorem c3_validity_rule :
    (∀ (h : Nat) (d : Option (List Nat)), 1 ≤ h → h ≤ 127 →
        Packet.is_valid { header := h, length := 0, data := d, valid := true } = false) ∧
      (∀ d : Option (List Nat),
        Packet.is_valid { header := 0, length := 0, data := d, valid := true } = true) ∧
      (∀ (h len : Nat) (d : Option (List Nat)),
        ((128 ≤ h ∧ h ≤ 199) ∨ h = 253 ∨ h = 254) → 0 < len →
        Packet.is_valid { header := h, length := len, data := d, valid := true } = false) := by
  refine ⟨fun h d h1 h2 => ?_, fun d => ?_, fun h len d hh hlen => ?_⟩
  · rw [Packet.is_valid]
    dsimp only [Packet.is_auth_packet]
    split_ifs <;> simp_all <;> omega
  · rw [Packet.is_valid]
    dsimp only
    rw [if_neg (by simp), if_pos ⟨rfl, rfl⟩]
  · rw [Packet.is_valid]
    dsimp only [Packet.is_auth_packet]
    split_ifs <;> simp_all <;> omega

/-- Witness for C3 (amended): opcode 1 with empty payload is rejected,
opcode 0 with empty payload is accepted, and `GET_BLOCK (129)` with a
nonzero length is rejected. -/
theorem c3_validity_rule_witness :
    Packet.is_valid { header := 1, length := 0, data := none, valid := true } = false ∧
      Packet.is_valid { header := 0, length := 0, data := none, valid := true } = true ∧
      Packet.is_valid { header := 129, length := 5, data := none, valid := true } = false :=
  ⟨c3_validity_rule.1 1 none (by norm_num) (by norm_num),
   c3_validity_rule.2.1 none,
   c3_validity_rule.2.2 129 5 none (Or.inl (by norm_num)) (by norm_num)⟩

/-! ## Mining template interface (`protocol/mining_template_interface.cpp`)

The interface owns the current template, the session binding and the
statistics counters.  The feed handler is external: calls model it as a
`registered` flag, and the outcome records the `(template, nBits)`
invocations that the C++ code would perform. -/

/-- `MiningTemplateInterface::TemplateState`. -/
inductive TemplateState where
  | EMPTY | PENDING | RECEIVED | VALIDATED | ACTIVE | STALE | SUBMITTED
deriving DecidableEq, Repr

/-- `MiningTemplateInterface::MiningTemplate`. -/
structure MiningTemplate where
  block : CBlock
  nBits : Nat
  timestamp_received : Nat
  state : TemplateState
  session_id : Nat
  source_endpoint : String
deriving DecidableEq, Repr

/-- The counter fields of `MiningTemplateInterface::TemplateStats`
(the two time sums are wall-clock measurements and are omitted). -/
structure TemplateStats where
  templates_received : Nat
  templates_validated : Nat
  templates_rejected : Nat
  templates_stale : Nat
  templates_fed : Nat
  blocks_verified : Nat
  blocks_submitted : Nat
deriving DecidableEq, Repr

/-- All counters zero, as set by the constructor and `reset_stats`. -/
def TemplateStats.zero : TemplateStats := ⟨0, 0, 0, 0, 0, 0, 0⟩

/-- `MiningTemplateInterface::ValidationResult` (boolean flags; the
error message and timing fields are omitted). -/
structure ValidationResult where
  is_valid : Bool
  is_stale : Bool
  merkle_valid : Bool
  height_valid : Bool
  bits_valid : Bool
  channel_valid : Bool
deriving DecidableEq, Repr

/-- The mutable state of a `MiningTemplateInterface`. -/
structure MTI where
  channel : Nat
  session_id : Nat
  current_height : Nat
  current_template : MiningTemplate
  stats : TemplateStats
deriving DecidableEq, Repr

/-- The `MiningTemplateInterface` constructor: template starts `EMPTY`
with the given session id; a channel other than 1 or 2 is replaced
with 2. -/
def MTI.init (channel session_id : Nat) : MTI :=
  { channel := if channel ≠ 1 ∧ channel ≠ 2 then 2 else channel
    session_id := session_id
    current_height := 0
    current_template :=
      { block := default, nBits := 0, timestamp_received := 0,
        state := TemplateState.EMPTY, session_id := session_id, source_endpoint := "" }
    stats := TemplateStats.zero }

/-- `MiningTemplateInterface::has_valid_template`: the current template
is `VALIDATED` or `ACTIVE`. -/
def MTI.has_valid_template (m : MTI) : Bool :=
  decide (m.current_template.state = TemplateState.VALIDATED ∨
    m.current_template.state = TemplateState.ACTIVE)

/-- `MiningTemplateInterface::set_session_id`: stores the id and stamps
it onto the current template. -/
def MTI.set_session_id (m : MTI) (session_id : Nat) : MTI :=
  { m with session_id := session_id,
           current_template.session_id := session_id }

/-- `MiningTemplateInterface::set_channel`: a value other than 1 or 2 is
ignored, keeping the current channel. -/
def MTI.set_channel (m : MTI) (channel : Nat) : MTI :=
  if channel ≠ 1 ∧ channel ≠ 2 then m else { m with channel := channel }

/-- `MiningTemplateInterface::reset_stats`. -/
def MTI.reset_stats (m : MTI) : MTI :=
  { m with stats := TemplateStats.zero }

/-- `MiningTemplateInterface::verify_block_creation`: requires a
`VALIDATED` or `ACTIVE` template and a merkle root of exactly 32 or 64
bytes; the nonce — zero included — is never grounds for rejection. -/
def MTI.verify_block_creation (m : MTI) (merkle_root : List Nat) (nonce : Nat) : Bool :=
  if m.has_valid_template = false then false
  else if merkle_root.length ≠ 32 ∧ merkle_root.length ≠ 64 then false
  else true

/-- `MiningTemplateInterface::validate_template`: the four checks run in
sequence — channel match, height not stale (`nHeight` below a nonzero
`m_current_height`), nonzero `nBits`, merkle root not all zeros — each
clearing its flag and `is_valid` on failure. -/
def MTI.validate_template (m : MTI) (tmpl : MiningTemplate) : ValidationResult :=
  let r : ValidationResult :=
    { is_valid := true, is_stale := false, merkle_valid := true,
      height_valid := true, bits_valid := true, channel_valid := true }
  let r := if tmpl.block.nChannel ≠ m.channel then
      { r with channel_valid := false, is_valid := false } else r
  let r := if 0 < m.current_height ∧ tmpl.block.nHeight < m.current_height then
      { r with is_stale := true, height_valid := false, is_valid := false } else r
  let r := if tmpl.block.nBits = 0 then
      { r with bits_valid := false, is_valid := false } else r
  let r := if tmpl.block.hashMerkleRoot.all (· = 0) then
      { r with merkle_valid := false, is_valid := false } else r
  r

/-- The template built by `read_template` before validation: `RECEIVED`
state, current session id, the parsed block and its `nBits`. -/
def MTI.received_template (m : MTI) (b : CBlock) (src : String) (now : Nat) :
    MiningTemplate :=
  { block := b, nBits := b.nBits, timestamp_received := now,
    state := TemplateState.RECEIVED, session_id := m.session_id,
    source_endpoint := src }

/-- The success path of `read_template` just before the feed: the
template is stored as `VALIDATED`, the session height becomes the
template's height, the validated counter increments. -/
def MTI.commit_validated (m : MTI) (tmpl : MiningTemplate) : MTI :=
  { m with current_template := { tmpl with state := TemplateState.VALIDATED },
           current_height := tmpl.block.nHeight,
           stats.templates_validated := m.stats.templates_validated + 1 }

/-- `MiningTemplateInterface::feed_current_template`: with a valid
template and a registered handler, mark the template `ACTIVE`, invoke
the handler once with `(template, nBits)` and bump the fed counter;
otherwise do nothing.  The returned list holds the handler
invocations. -/
def MTI.feed_current_template (m : MTI) (registered : Bool) :
    MTI × Bool × List (MiningTemplate × Nat) :=
  if m.has_valid_template = false then (m, false, [])
  else if registered = false then (m, false, [])
  else
    let m := { m with current_template.state := TemplateState.ACTIVE }
    ({ m with stats.templates_fed := m.stats.templates_fed + 1 }, true,
      [(m.current_template, m.current_template.nBits)])

/-- `MiningTemplateInterface::mark_template_stale`: a template that is
neither `EMPTY` nor already `STALE` becomes `STALE` and the stale
counter increments. -/
def MTI.mark_template_stale (m : MTI) : MTI :=
  if m.current_template.state ≠ TemplateState.EMPTY ∧
      m.current_template.state ≠ TemplateState.STALE then
    { m with current_template.state := TemplateState.STALE,
             stats.templates_stale := m.stats.templates_stale + 1 }
  else m

/-- Outcome of `read_template`: the new interface state, the validation
result returned to the caller, and the feed-handler invocations. -/
structure ReadOutcome where
  state : MTI
  result : ValidationResult
  feeds : List (MiningTemplate × Nat)
deriving DecidableEq, Repr

/-- `MiningTemplateInterface::read_template` (payload overload):
increment the received counter; parse the block header; on parse failure
reject with an all-false result; otherwise validate, and either commit
and auto-feed (success) or bump the rejected — and, when stale, the
stale — counter (failure). -/
def MTI.read_template (m : MTI) (data : List Nat) (src : String) (now : Nat)
    (registered : Bool) : ReadOutcome :=
  let m := { m with stats.templates_received := m.stats.templates_received + 1 }
  match deserialize_block_header data with
  | Except.error _ =>
      { state := { m with stats.templates_rejected := m.stats.templates_rejected + 1 }
        result := { is_valid := false, is_stale := false, merkle_valid := false,
                    height_valid := false, bits_valid := false, channel_valid := false }
        feeds := [] }
  | Except.ok b =>
      let tmpl := m.received_template b src now
      let r := m.validate_template tmpl
      if r.is_valid = true then
        let mc := m.commit_validated tmpl
        let fed := mc.feed_current_template registered
        { state := fed.1, result := r, feeds := fed.2.2 }
      else
        let m := { m with stats.templates_rejected := m.stats.templates_rejected + 1 }
        let m := if r.is_stale = true then
            { m with stats.templates_stale := m.stats.templates_stale + 1 } else m
        { state := m, result := r, feeds := [] }

/-! ## Solo session state machine (`protocol/solo.cpp`) -/

/-- The session fields of `protocol::Solo` that the embedded operations
touch. -/
structure SoloState where
  channel : Nat
  current_height : Nat
  current_difficulty : Nat
  current_reward : Nat
  authenticated : Bool
  session_id : Nat
  auth_timestamp : Nat
  mti : MTI
deriving DecidableEq, Repr

/-- The `Solo` constructor: clamp a channel other than 1 or 2 to 2, then
create the template interface on the clamped channel with session id
0. -/
def Solo.init (channel : Nat) : SoloState :=
  let ch := if channel ≠ 1 ∧ channel ≠ 2 then 2 else channel
  { channel := ch, current_height := 0, current_difficulty := 0,
    current_reward := 0, authenticated := false, session_id := 0,
    auth_timestamp := 0, mti := MTI.init ch 0 }

/-- `Solo::reset`: zero the height, difficulty, reward, auth flag,
session id and auth timestamp; reset the template interface's session id
to 0 and clear its statistics. -/
def Solo.reset (s : SoloState) : SoloState :=
  { s with current_height := 0, current_difficulty := 0, current_reward := 0,
           authenticated := false, session_id := 0, auth_timestamp := 0,
           mti := (s.mti.set_session_id 0).reset_stats }

/-- `Solo::send_set_channel`: transmit a `SET_CHANNEL` (opcode 3) packet
whose single payload byte is the channel. -/
def Solo.send_set_channel (s : SoloState) : Option (List Nat) :=
  (Packet.mk 3 1 (some [s.channel]) true).get_bytes

/-- The `MINER_AUTH_RESULT` branch of `Solo::process_messages`: with a
payload of at least one byte, a nonzero status byte authenticates the
session, stores the little-endian session id from bytes 1..5 when the
payload has at least 5 bytes (binding the template interface to it), and
sends `SET_CHANNEL`; a zero status byte leaves the session
unauthenticated and sends nothing.  The second component lists the
transmitted wire payloads. -/
def Solo.process_auth_result (s : SoloState) (payload : Option (List Nat)) :
    SoloState × List (Option (List Nat)) :=
  match payload with
  | none => (s, [])
  | some d =>
    if d.length < 1 then (s, [])
    else if d.getD 0 0 ≠ 0 then
      let s := { s with authenticated := true }
      let s :=
        if 5 ≤ d.length then
          let sid := u32leOf (d.getD 1 0) (d.getD 2 0) (d.getD 3 0) (d.getD 4 0)
          { s with session_id := sid, mti := s.mti.set_session_id sid }
        else s
      (s, [Solo.send_set_channel s])
    else
      ({ s with authenticated := false }, [])

/-- `Solo::submit_block`: abort (empty payload) on empty block data, on
a missing or invalid Falcon wrapper, or on a failed signature; otherwise
sign `block_data ∥ nonce_le64 ∥ timestamp_le64`, build the payload
`block_data ∥ nonce_le64 ∥ timestamp_le64 ∥ sig_len_le16 ∥ signature`
and frame it as a `SUBMIT_BLOCK` (opcode 1) packet.  `wrapper = none`
models a null or invalid `m_falcon_wrapper`; the sign function returning
`none` models a failed `sign_payload`. -/
def Solo.submit_block (block_data : List Nat) (nonce timestamp : Nat)
    (wrapper : Option (List Nat → Option (List Nat))) : Option (List Nat) :=
  if block_data.length = 0 then none
  else
    match wrapper with
    | none => none
    | some sign =>
      let message_to_sign := block_data ++ u64leBytes nonce ++ u64leBytes timestamp
      match sign message_to_sign with
      | none => none
      | some sig =>
        let payload := block_data ++ u64leBytes nonce ++ u64leBytes timestamp ++
          u16leBytes (sig.length % 2 ^ 16) ++ sig
        (Packet.mk 1 payload.length (some payload) true).get_bytes

/-- A data-class packet (nonzero opcode below 128) with a positive
length field passes `Packet::is_valid`. -/
theorem is_valid_data (h L : Nat) (d : Option (List Nat)) (hh1 : 0 < h)
    (hh2 : h < 128) (hL : 0 < L) :
    Packet.is_valid { header := h, length := L, data := d, valid := true } = true := by
  rw [Packet.is_valid]
  dsimp only
  rw [if_neg (by simp), if_neg (by omega), if_neg (by omega), if_pos ⟨hh2, hL⟩]

/-- `Packet::get_bytes` for a data-class packet: opcode byte, big-endian
length, payload. -/
theorem get_bytes_data (h L : Nat) (p : List Nat) (hh1 : 0 < h) (hh2 : h < 128)
    (hL : 0 < L) :
    (Packet.mk h L (some p) true).get_bytes = some (h :: (u32beBytes L ++ p)) := by
  rw [Packet.get_bytes, is_valid_data h L (some p) hh1 hh2 hL]
  rw [if_neg (by simp), if_pos ⟨Or.inl hh2, hL⟩]
  rfl

/-- C4: on `MINER_AUTH_RESULT` with status byte 1 and at least 5 payload
bytes, the session authenticates, the session id becomes bytes 1..5
little-endian, the template interface is bound to that id, and one
`SET_CHANNEL` wire packet (opcode 3, 1-byte payload = channel) is sent;
with status byte 0 the session stays unauthenticated and nothing is
sent. -/
theorem c4_auth_result (s : SoloState) (d : List Nat) :
    (d.getD 0 0 = 1 → 5 ≤ d.length →
      (Solo.process_auth_result s (some d)).1.authenticated = true ∧
        (Solo.process_auth_result s (some d)).1.session_id =
          u32leOf (d.getD 1 0) (d.getD 2 0) (d.getD 3 0) (d.getD 4 0) ∧
        (Solo.process_auth_result s (some d)).1.mti.session_id =
          u32leOf (d.getD 1 0) (d.getD 2 0) (d.getD 3 0) (d.getD 4 0) ∧
        (Solo.process_auth_result s (some d)).2 =
          [some [3, 0, 0, 0, 1, s.channel]]) ∧
      (d.getD 0 0 = 0 → 1 ≤ d.length →
        (Solo.process_auth_result s (some d)).1.authenticated = false ∧
          (Solo.process_auth_result s (some d)).2 = []) := by
  constructor
  · intro hstatus hlen
    rw [Solo.process_auth_result]
    rw [if_neg (by omega), if_pos (by omega)]
    dsimp only
    rw [if_pos hlen]
    refine ⟨rfl, rfl, rfl, ?_⟩
    rw [Solo.send_set_channel, get_bytes_data 3 1 _ (by norm_num) (by norm_num) (by norm_num)]
    rfl
  · intro hstatus hlen
    rw [Solo.process_auth_result]
    rw [if_neg (by omega), if_neg (by omega)]
    exact ⟨rfl, rfl⟩

/-- Witness for C4: the fixture of spec scenario S1 — status `0x01` with
session id bytes `10 20 30 40` yields session id `0x40302010` and a
`SET_CHANNEL` for channel 2 — and a status-`0x00` payload yields no
authentication and no send. -/
theorem c4_auth_result_witness :
    (Solo.process_auth_result (Solo.init 2) (some [1, 16, 32, 48, 64])).1.authenticated =
        true ∧
      (Solo.process_auth_result (Solo.init 2) (some [1, 16, 32, 48, 64])).1.session_id =
        1076895760 ∧
      (Solo.process_auth_result (Solo.init 2) (some [1, 16, 32, 48, 64])).1.mti.session_id =
        1076895760 ∧
      (Solo.process_auth_result (Solo.init 2) (some [1, 16, 32, 48, 64])).2 =
        [some [3, 0, 0, 0, 1, 2]] ∧
      (Solo.process_auth_result (Solo.init 2) (some [0])).1.authenticated = false ∧
      (Solo.process_auth_result (Solo.init 2) (some [0])).2 = [] := by
  have h1 := (c4_auth_result (Solo.init 2) [1, 16, 32, 48, 64]).1 (by rfl) (by norm_num)
  have h2 := (c4_auth_result (Solo.init 2) [0]).2 (by rfl) (by norm_num)
  have hv : u32leOf ([1, 16, 32, 48, 64].getD 1 0) ([1, 16, 32, 48, 64].getD 2 0)
      ([1, 16, 32, 48, 64].getD 3 0) ([1, 16, 32, 48, 64].getD 4 0) = 1076895760 := by
    norm_num [u32leOf, List.getD]
  exact ⟨h1.1, hv ▸ h1.2.1, hv ▸ h1.2.2.1, h1.2.2.2, h2.1, h2.2⟩

/-- C6: `submit_block` signs exactly the 80-byte message
`merkle_root(64) ∥ nonce_le64 ∥ timestamp_le64` and produces the
`SUBMIT_BLOCK` wire packet whose payload is that prefix followed by the
little-endian 16-bit signature length and the signature; with no usable
Falcon wrapper the submission aborts with an empty payload. -/
theorem c6_submit_block (block_data sig : List Nat) (nonce timestamp : Nat)
    (sign : List Nat → Option (List Nat))
    (hbd : block_data.length = 64)
    (hsig : sign (block_data ++ u64leBytes nonce ++ u64leBytes timestamp) = some sig)
    (hslen : sig.length < 2 ^ 16) :
    (block_data ++ u64leBytes nonce ++ u64leBytes timestamp).length = 80 ∧
      Solo.submit_block block_data nonce timestamp (some sign) =
        some (1 :: (u32beBytes (82 + sig.length) ++
          (block_data ++ u64leBytes nonce ++ u64leBytes timestamp ++
            u16leBytes sig.length ++ sig))) ∧
      (∀ (bd : List Nat) (n t : Nat), Solo.submit_block bd n t none = none) := by
  have hmsg : (block_data ++ u64leBytes nonce ++ u64leBytes timestamp).length = 80 := by
    simp [hbd, u64leBytes]
  refine ⟨hmsg, ?_, ?_⟩
  · rw [Solo.submit_block, if_neg (by omega)]
    dsimp only
    rw [hsig]
    dsimp only
    rw [Nat.mod_eq_of_lt hslen]
    have hplen : (block_data ++ u64leBytes nonce ++ u64leBytes timestamp ++
        u16leBytes sig.length ++ sig).length = 82 + sig.length := by
      simp [hbd, u64leBytes, u16leBytes]
      omega
    rw [get_bytes_data 1 _ _ (by norm_num) (by norm_num) (by rw [hplen]; omega), hplen]
  · intro bd n t
    rw [Solo.submit_block]
    split <;> rfl

/-- Witness for C6: a concrete 64-byte merkle root, nonce and timestamp
with a signing oracle returning a 3-byte signature produce the framed
payload; the missing-wrapper case aborts. -/
theorem c6_submit_block_witness :
    (List.replicate 64 5 ++ u64leBytes 9 ++ u64leBytes 11).length = 80 ∧
      Solo.submit_block (List.replicate 64 5) 9 11 (some fun _ => some [7, 7, 7]) =
        some (1 :: (u32beBytes 85 ++
          (List.replicate 64 5 ++ u64leBytes 9 ++ u64leBytes 11 ++
            u16leBytes 3 ++ [7, 7, 7]))) ∧
      (∀ (bd : List Nat) (n t : Nat), Solo.submit_block bd n t none = none) := by
  have h := c6_submit_block (List.replicate 64 5) [7, 7, 7] 9 11
    (fun _ => some [7, 7, 7]) (by simp) rfl (by norm_num)
  exact ⟨h.1, h.2.1, h.2.2⟩

/-- C7: the claim that `Solo::reset` marks the current template `STALE`
is refuted: resetting a session whose template is `ACTIVE` leaves the
template state `ACTIVE`. -/
theorem c7_counterexample :
    (Solo.reset
        { channel := 2, current_height := 1000, current_difficulty := 0,
          current_reward := 0, authenticated := true, session_id := 7,
          auth_timestamp := 5,
          mti :=
            { channel := 2, session_id := 7, current_height := 1000,
              current_template :=
                { block := default, nBits := 1, timestamp_received := 3,
                  state := TemplateState.ACTIVE, session_id := 7,
                  source_endpoint := "" },
              stats := TemplateStats.zero } }).mti.current_template.state =
        TemplateState.ACTIVE ∧
      TemplateState.ACTIVE ≠ TemplateState.STALE := by
  exact ⟨rfl, by decide⟩

/-- C7 (amended): after `Solo::reset` the session satisfies
`authenticated = false`, `session_id = 0` and `current_height = 0`, and
the template interface's session id is rebound to 0 and its statistics
cleared; the current template's lifecycle state is left unchanged — it
is not marked `STALE`. -/
theorem c7_reset (s : SoloState) :
    (Solo.reset s).authenticated = false ∧
      (Solo.reset s).session_id = 0 ∧
      (Solo.reset s).current_height = 0 ∧
      (Solo.reset s).mti.session_id = 0 ∧
      (Solo.reset s).mti.current_template.session_id = 0 ∧
      (Solo.reset s).mti.stats = TemplateStats.zero ∧
      (Solo.reset s).mti.current_template.state = s.mti.current_template.state := by
  simp [Solo.reset, MTI.set_session_id, MTI.reset_stats]

/-- C8: `verify_block_creation` accepts exactly when a `VALIDATED` or
`ACTIVE` template exists and the merkle root is 32 or 64 bytes long; the
nonce — zero included — plays no part; any other merkle length or a
missing valid template is rejected. -/
theorem c8_verify_block_creation (m : MTI) (merkle_root : List Nat) (nonce : Nat) :
    ((m.current_template.state = TemplateState.VALIDATED ∨
          m.current_template.state = TemplateState.ACTIVE) →
        (merkle_root.length = 32 ∨ merkle_root.length = 64) →
        m.verify_block_creation merkle_root nonce = true) ∧
      (merkle_root.length ≠ 32 → merkle_root.length ≠ 64 →
        m.verify_block_creation merkle_root nonce = false) ∧
      (m.current_template.state ≠ TemplateState.VALIDATED →
        m.current_template.state ≠ TemplateState.ACTIVE →
        m.verify_block_creation merkle_root nonce = false) := by
  refine ⟨fun hstate hlen => ?_, fun h32 h64 => ?_, fun hv ha => ?_⟩
  · rw [MTI.verify_block_creation, MTI.has_valid_template]
    rw [if_neg (by simp [hstate]), if_neg (by tauto)]
  · rw [MTI.verify_block_creation]
    split_ifs <;> simp_all
  · rw [MTI.verify_block_creation, MTI.has_valid_template]
    rw [if_pos (by simp [hv, ha])]

/-- Witness for C8: with a `VALIDATED` template, a 32-byte merkle root
and nonce 0 pass; a 33-byte merkle root fails; with an `EMPTY` template
even a 64-byte merkle root fails. -/
theorem c8_verify_block_creation_witness :
    ((MTI.init 2 0).set_channel 2 |>.channel) = 2 ∧
      MTI.verify_block_creation
        { MTI.init 2 0 with current_template.state := TemplateState.VALIDATED }
        (List.replicate 32 1) 0 = true ∧
      MTI.verify_block_creation
        { MTI.init 2 0 with current_template.state := TemplateState.VALIDATED }
        (List.replicate 33 1) 0 = false ∧
      MTI.verify_block_creation (MTI.init 2 0) (List.replicate 64 1) 0 = false := by
  refine ⟨rfl, ?_, ?_, ?_⟩
  · exact (c8_verify_block_creation _ _ 0).1 (Or.inl rfl) (Or.inl (by simp))
  · exact (c8_verify_block_creation _ _ 0).2.1 (by simp) (by simp)
  · exact (c8_verify_block_creation _ _ 0).2.2 (by decide) (by decide)

/-- A template whose height lies strictly below a nonzero current
session height fails validation and is flagged stale, whatever the other
checks say. -/
theorem validate_template_stale (m : MTI) (tmpl : MiningTemplate)
    (h1 : 0 < m.current_height) (h2 : tmpl.block.nHeight < m.current_height) :
    (m.validate_template tmpl).is_valid = false ∧
      (m.validate_template tmpl).is_stale = true := by
  rw [MTI.validate_template]
  dsimp only
  split_ifs <;> simp_all

/-- A template whose height equals the current session height passes the
height check. -/
theorem validate_template_height_ok (m : MTI) (tmpl : MiningTemplate)
    (h : tmpl.block.nHeight = m.current_height) :
    (m.validate_template tmpl).height_valid = true := by
  rw [MTI.validate_template]
  dsimp only
  split_ifs <;> simp_all

/-- Bumping the received counter does not change what
`validate_template` decides (it only reads the channel and the current
height). -/
theorem validate_template_bump (m : MTI) (k : Nat) (tmpl : MiningTemplate) :
    MTI.validate_template { m with stats.templates_received := k } tmpl =
      m.validate_template tmpl := rfl

/-- Bumping the received counter does not change the received template
(it only reads the session id). -/
theorem received_template_bump (m : MTI) (k : Nat) (b : CBlock) (src : String)
    (now : Nat) :
    MTI.received_template { m with stats.templates_received := k } b src now =
      m.received_template b src now := rfl

/-- C5: reading a template that parses to a block `b`:

* if `b`'s height is strictly below the nonzero current session height,
  validation fails with a stale result, the rejected and stale counters
  increment, no feed happens, and the stored template and session height
  are unchanged;
* a height equal to the current session height passes the height check;
* on fully successful validation with a registered handler, the template
  is stored `VALIDATED` before the feed, the session height becomes the
  template's height, and the feed handler is invoked exactly once with
  the template (now `ACTIVE`) and its `nBits`. -/
theorem c5_template_read (m : MTI) (data : List Nat) (src : String) (now : Nat)
    (registered : Bool) (b : CBlock)
    (hparse : deserialize_block_header data = Except.ok b) :
    (0 < m.current_height → b.nHeight < m.current_height →
        (m.read_template data src now registered).result.is_valid = false ∧
          (m.read_template data src now registered).result.is_stale = true ∧
          (m.read_template data src now registered).state.stats.templates_rejected =
            m.stats.templates_rejected + 1 ∧
          (m.read_template data src now registered).state.stats.templates_stale =
            m.stats.templates_stale + 1 ∧
          (m.read_template data src now registered).feeds = [] ∧
          (m.read_template data src now registered).state.current_template =
            m.current_template ∧
          (m.read_template data src now registered).state.current_height =
            m.current_height) ∧
      (b.nHeight = m.current_height →
        (m.validate_template (m.received_template b src now)).height_valid = true) ∧
      (registered = true →
        (m.validate_template (m.received_template b src now)).is_valid = true →
        (m.commit_validated (m.received_template b src now)).current_template.state =
            TemplateState.VALIDATED ∧
          (m.read_template data src now registered).state.current_height = b.nHeight ∧
          (m.read_template data src now registered).feeds =
            [({ m.received_template b src now with state := TemplateState.ACTIVE },
              b.nBits)] ∧
          (m.read_template data src now registered).state.current_template =
            { m.received_template b src now with state := TemplateState.ACTIVE }) := by
  refine ⟨fun hpos hlt => ?_, fun heq => validate_template_height_ok m _ heq,
    fun hreg hvalid => ?_⟩
  · have hv := validate_template_stale
      { m with stats.templates_received := m.stats.templates_received + 1 }
      (MTI.received_template
        { m with stats.templates_received := m.stats.templates_received + 1 } b src now)
      hpos hlt
    rw [MTI.read_template]
    rw [hparse]
    dsimp only
    rw [if_neg (by rw [hv.1]; simp), if_pos hv.2]
    exact ⟨hv.1, hv.2, rfl, rfl, rfl, rfl, rfl⟩
  · subst hreg
    refine ⟨rfl, ?_⟩
    rw [MTI.read_template]
    rw [hparse]
    dsimp only
    rw [received_template_bump, validate_template_bump]
    rw [if_pos hvalid]
    rw [MTI.feed_current_template]
    rw [if_neg (by rw [MTI.has_valid_template]; simp [MTI.commit_validated]),
      if_neg (by simp)]
    exact ⟨rfl, rfl, rfl⟩

/-- Witness for C5: a concrete session at height 1000 on channel 2.  A
template at height 999 is rejected stale without touching the stored
template; a fully valid template at height 1000 is committed, fed once
and raises no counter but validated/fed. -/
theorem c5_template_read_witness :
    (let m : MTI :=
      { channel := 2, session_id := 9, current_height := 1000,
        current_template :=
          { block := default, nBits := 0, timestamp_received := 0,
            state := TemplateState.EMPTY, session_id := 9, source_endpoint := "" },
        stats := TemplateStats.zero }
    let staleData := encodeHeaderBE
      ⟨7, List.replicate 128 1, List.replicate 64 2, 2, 999, 123, 5, 0⟩
    let goodData := encodeHeaderBE
      ⟨7, List.replicate 128 1, List.replicate 64 2, 2, 1000, 123, 5, 0⟩
    ((m.read_template staleData "" 3 true).result.is_stale = true ∧
        (m.read_template staleData "" 3 true).state.current_template =
          m.current_template ∧
        (m.read_template staleData "" 3 true).feeds = []) ∧
      ((m.read_template goodData "" 3 true).state.current_height = 1000 ∧
        (m.read_template goodData "" 3 true).feeds =
          [({ block := ⟨7, List.replicate 128 1, List.replicate 64 2, 2, 1000, 123, 5, 0⟩,
              nBits := 123, timestamp_received := 3,
              state := TemplateState.ACTIVE, session_id := 9,
              source_endpoint := "" }, 123)])) := by
  intro m staleData goodData
  have hps : deserialize_block_header staleData =
      Except.ok ⟨7, List.replicate 128 1, List.replicate 64 2, 2, 999, 123, 5, 0⟩ :=
    deserialize_encodeHeaderBE _
      ⟨by simp, by simp, by norm_num, by norm_num, by norm_num, by norm_num, by norm_num, rfl⟩
  have hpg : deserialize_block_header goodData =
      Except.ok ⟨7, List.replicate 128 1, List.replicate 64 2, 2, 1000, 123, 5, 0⟩ :=
    deserialize_encodeHeaderBE _
      ⟨by simp, by simp, by norm_num, by norm_num, by norm_num, by norm_num, by norm_num, rfl⟩
  have hs := (c5_template_read m staleData "" 3 true _ hps).1 (by norm_num) (by norm_num)
  have hg := (c5_template_read m goodData "" 3 true _ hpg).2.2 rfl (by decide)
  exact ⟨⟨hs.2.1, hs.2.2.2.2.2.1, hs.2.2.2.2.1⟩, ⟨hg.2.1, hg.2.2.1⟩⟩

/-- C10: the channel stays in `{1, 2}`: the `Solo` and
`MiningTemplateInterface` constructors replace any other value with 2,
and `set_channel` ignores any other value, keeping the stored
channel. -/
theorem c10_channel_invariant :
    (∀ c : Nat, c ≠ 1 → c ≠ 2 →
        (Solo.init c).channel = 2 ∧ (Solo.init c).mti.channel = 2) ∧
      (∀ c sid : Nat, c ≠ 1 → c ≠ 2 → (MTI.init c sid).channel = 2) ∧
      (∀ (m : MTI) (c : Nat), c ≠ 1 → c ≠ 2 → m.set_channel c = m) ∧
      (∀ c : Nat, (Solo.init c).channel = 1 ∨ (Solo.init c).channel = 2) ∧
      (∀ c sid : Nat, (MTI.init c sid).channel = 1 ∨ (MTI.init c sid).channel = 2) ∧
      (∀ (m : MTI) (c : Nat), (m.channel = 1 ∨ m.channel = 2) →
        (m.set_channel c).channel = 1 ∨ (m.set_channel c).channel = 2) := by
  refine ⟨fun c h1 h2 => ?_, fun c sid h1 h2 => ?_, fun m c h1 h2 => ?_,
    fun c => ?_, fun c sid => ?_, fun m c hm => ?_⟩
  · constructor <;> simp [Solo.init, MTI.init, h1, h2]
  · simp [MTI.init, h1, h2]
  · rw [MTI.set_channel, if_pos ⟨h1, h2⟩]
  · by_cases h1 : c = 1 <;> by_cases h2 : c = 2 <;> simp [Solo.init, h1, h2]
  · by_cases h1 : c = 1 <;> by_cases h2 : c = 2 <;> simp [MTI.init, h1, h2]
  · rw [MTI.set_channel]
    split_ifs <;> tauto

/-- Witness for C10: channel 5 is clamped to 2 by both constructors, and
`set_channel 5` leaves the stored channel untouched. -/
theorem c10_channel_invariant_witness :
    (Solo.init 5).channel = 2 ∧ (Solo.init 5).mti.channel = 2 ∧
      (MTI.init 5 0).channel = 2 ∧
      (MTI.init 2 0).set_channel 5 = MTI.init 2 0 ∧
      ((MTI.init 2 0).set_channel 1).channel = 1 := by
  have h1 := c10_channel_invariant.1 5 (by norm_num) (by norm_num)
  have h2 := c10_channel_invariant.2.1 5 0 (by norm_num) (by norm_num)
  have h3 := c10_channel_invariant.2.2.1 (MTI.init 2 0) 5 (by norm_num) (by norm_num)
  exact ⟨h1.1, h1.2, h2, h3, rfl⟩

/-! ## Hex decoder (`miner_keys.cpp`, `keys::from_hex`)

`from_hex` rejects odd-length input up front (without touching the
output vector), then clears the output and converts each two-character
group with `std::stoul(group, nullptr, 16)`, truncating the value to a
byte; a group `stoul` throws on clears the output and fails.

`stoul` is modelled for exactly-two-character strings on a 64-bit
platform: skip leading whitespace, accept an optional sign, then parse
the longest hexadecimal-digit run; it throws only when no digit is
parsed.  In particular `"0x"` parses as 0 (the digit `0` followed by a
stray `x`), `"1z"` parses as 1, `"+1"` as 1, and `"-1"` wraps to
`2^64 - 1` in unsigned arithmetic. -/

/-- `isspace` in the default locale: space, `\t`, `\n`, vertical tab,
form feed, `\r`. -/
def isCSpace (c : Char) : Bool :=
  c = ' ' || c = Char.ofNat 9 || c = Char.ofNat 10 || c = Char.ofNat 11 ||
    c = Char.ofNat 12 || c = Char.ofNat 13

/-- The value of a hexadecimal digit, upper- or lower-case. -/
def hexDigitVal (c : Char) : Option Nat :=
  if '0' ≤ c ∧ c ≤ '9' then some (c.toNat - '0'.toNat)
  else if 'a' ≤ c ∧ c ≤ 'f' then some (c.toNat - 'a'.toNat + 10)
  else if 'A' ≤ c ∧ c ≤ 'F' then some (c.toNat - 'A'.toNat + 10)
  else none

/-- `std::stoul(s, nullptr, 16)` restricted to two-character strings
(64-bit `unsigned long`): `none` models the `std::invalid_argument`
throw when no digit can be parsed. -/
def stoul16_pair (c0 c1 : Char) : Option Nat :=
  if isCSpace c0 = true then
    match hexDigitVal c1 with
    | some d => some d
    | none => none
  else if c0 = '+' then
    match hexDigitVal c1 with
    | some d => some d
    | none => none
  else if c0 = '-' then
    match hexDigitVal c1 with
    | some d => some ((2 ^ 64 - d) % 2 ^ 64)
    | none => none
  else
    match hexDigitVal c0 with
    | some d0 =>
      match hexDigitVal c1 with
      | some d1 => some (16 * d0 + d1)
      | none => some d0
    | none => none

/-- The conversion loop of `from_hex`: convert each group, truncate to a
byte and push; a throwing group clears the output and fails. -/
def from_hex_loop : List Char → List Nat → Bool × List Nat
  | [], acc => (true, acc)
  | [_], acc => (true, acc)
  | c0 :: c1 :: rest, acc =>
    match stoul16_pair c0 c1 with
    | some v => from_hex_loop rest (acc ++ [v % 256])
    | none => (false, [])

/-- `keys::from_hex`: odd-length input fails immediately, before the
output vector is cleared; otherwise the output is rebuilt from the
groups.  The second component is the state of the caller's `data`
vector after the call. -/
def from_hex (hex : List Char) (data : List Nat) : Bool × List Nat :=
  if hex.length % 2 ≠ 0 then (false, data)
  else from_hex_loop hex []

/-- Whether every two-character group is accepted by the code's `stoul`
conversion (the actual success condition of the loop). -/
def pairs_parse_ok : List Char → Bool
  | [] => true
  | [_] => true
  | c0 :: c1 :: rest => (stoul16_pair c0 c1).isSome && pairs_parse_ok rest

/-- The bytes produced on success: each group's `stoul` value truncated
to a byte. -/
def hex_pairs_bytes : List Char → List Nat
  | [] => []
  | [_] => []
  | c0 :: c1 :: rest => (stoul16_pair c0 c1).getD 0 % 256 :: hex_pairs_bytes rest

/-- The spec's notion of a well-formed hex string, stated from the
spec's words for comparison: even length and every two-character group
is two hexadecimal digits (upper- or lower-case accepted). -/
def spec_hex_ok : List Char → Bool
  | [] => true
  | [_] => false
  | c0 :: c1 :: rest =>
    (hexDigitVal c0).isSome && (hexDigitVal c1).isSome && spec_hex_ok rest

theorem from_hex_loop_spec (hex : List Char) (acc : List Nat) :
    (pairs_parse_ok hex = true →
        from_hex_loop hex acc = (true, acc ++ hex_pairs_bytes hex)) ∧
      (pairs_parse_ok hex = false → from_hex_loop hex acc = (false, [])) := by
  induction hex, acc using from_hex_loop.induct with
  | case1 acc => simp [from_hex_loop, pairs_parse_ok, hex_pairs_bytes]
  | case2 c acc => simp [from_hex_loop, pairs_parse_ok, hex_pairs_bytes]
  | case3 c0 c1 rest acc v hv ih =>
    constructor
    · intro hok
      rw [pairs_parse_ok, hv] at hok
      simp only [Option.isSome_some, Bool.true_and] at hok
      rw [from_hex_loop, hv]
      dsimp only
      rw [ih.1 hok, hex_pairs_bytes, hv]
      simp
    · intro hbad
      rw [pairs_parse_ok, hv] at hbad
      simp only [Option.isSome_some, Bool.true_and] at hbad
      rw [from_hex_loop, hv]
      dsimp only
      exact ih.2 hbad
  | case4 c0 c1 rest acc hv =>
    constructor
    · intro hok
      rw [pairs_parse_ok, hv] at hok
      simp at hok
    · intro hbad
      rw [from_hex_loop, hv]

/-- C9: the claim's characterization of `from_hex` is refuted on
`"+1"`, which is not two hex digits yet succeeds (producing byte 1,
because `std::stoul` accepts a sign), and on the odd-length input
`"a"` with a previously filled output vector, which fails but leaves
the vector untouched instead of clearing it. -/
theorem c9_counterexample :
    (from_hex ['+', '1'] []).1 = true ∧ spec_hex_ok ['+', '1'] = false ∧
      from_hex ['a'] [5] = (false, [5]) := by
  refine ⟨?_, by decide, by decide⟩
  decide

/-- C9 (amended): `from_hex` succeeds iff the input has even length and
every two-character group is accepted by `std::stoul` base-16 semantics
(leading whitespace and a sign are tolerated and a single leading hex
digit suffices, so the accepted set is strictly larger than two hex
digits); on success the output holds each group's value truncated to a
byte; an even-length input with a rejected group fails with the output
cleared, but an odd-length input fails with the output left
unchanged. -/
theorem c9_from_hex (hex : List Char) (data : List Nat) :
    ((from_hex hex data).1 = true ↔
        hex.length % 2 = 0 ∧ pairs_parse_ok hex = true) ∧
      ((from_hex hex data).1 = true →
        (from_hex hex data).2 = hex_pairs_bytes hex) ∧
      (hex.length % 2 = 1 → from_hex hex data = (false, data)) ∧
      (hex.length % 2 = 0 → pairs_parse_ok hex = false →
        from_hex hex data = (false, [])) := by
  refine ⟨⟨fun hs => ?_, fun hs => ?_⟩, fun hs => ?_, fun hodd => ?_, fun hev hbad => ?_⟩
  · rw [from_hex] at hs
    by_cases hev : hex.length % 2 = 0
    · refine ⟨hev, ?_⟩
      rw [if_neg (by omega)] at hs
      by_contra hbad
      rw [(from_hex_loop_spec hex []).2 (by simpa using hbad)] at hs
      simp at hs
    · rw [if_pos (by omega)] at hs
      simp at hs
  · rw [from_hex, if_neg (by omega), (from_hex_loop_spec hex []).1 hs.2]
  · rw [from_hex] at hs ⊢
    by_cases hev : hex.length % 2 = 0
    · rw [if_neg (by omega)] at hs ⊢
      by_cases hok : pairs_parse_ok hex = true
      · rw [(from_hex_loop_spec hex []).1 hok]
        simp
      · rw [(from_hex_loop_spec hex []).2 (by simpa using hok)] at hs
        simp at hs
    · rw [if_pos (by omega)] at hs
      simp at hs
  · rw [from_hex, if_pos (by omega)]
  · rw [from_hex, if_neg (by omega), (from_hex_loop_spec hex []).2 hbad]

/-- Witness for C9 (amended): `"0a"` decodes to byte 10; `"abc"` (odd)
fails leaving the output `[9]` untouched; `"zz"` (even, unparsable)
fails clearing the output. -/
theorem c9_from_hex_witness :
    (from_hex ['0', 'a'] [9]).1 = true ∧
      (from_hex ['0', 'a'] [9]).2 = [10] ∧
      from_hex ['a', 'b', 'c'] [9] = (false, [9]) ∧
      from_hex ['z', 'z'] [9] = (false, []) := by
  refine ⟨?_, ?_, ?_, ?_⟩
  · exact ((c9_from_hex ['0', 'a'] [9]).1).2 ⟨by decide, by decide⟩
  · have h := (c9_from_hex ['0', 'a'] [9]).2.1
      (((c9_from_hex ['0', 'a'] [9]).1).2 ⟨by decide, by decide⟩)
    rw [h]
    decide
  · exact (c9_from_hex ['a', 'b', 'c'] [9]).2.2.1 (by decide)
  · exact (c9_from_hex ['z', 'z'] [9]).2.2.2 (by decide) (by decide)

end NexusMiner
